import Mathlib

/-!
Shallow embedding of `src/lib/CarouselImage.tsx` (rn-ui-components).

The component keeps a state `{width, itemWidth}`; `onLayout` recomputes
`itemWidth = Math.round((width - numColumns * (gap || GAP_DEFAULT)) / (numColumns + 0.25))`;
`onScroll` forwards the content offset to an animated value only while it is
`<= itemWidth * 2`; `render` shows the banner image only when an `image` prop is
present and `itemWidth` is truthy, and shows the carousel (leading spacer, one
square image per data item, trailing spacer) only when `itemWidth` is truthy.
Numbers are modelled as rationals; JS truthiness of a number is `≠ 0`.
-/

def GAP_DEFAULT : ℚ := 6

structure CarouselImageItem where
  key : String
deriving DecidableEq

structure CarouselImageProps where
  data : List CarouselImageItem
  numColumns : ℚ
  gap : Option ℚ
  image : Bool
  rounded : Bool
deriving DecidableEq

structure CarouselImageState where
  width : ℚ
  itemWidth : ℚ
deriving DecidableEq

/-- JS expression `this.props.gap || GAP_DEFAULT`: an absent gap and a gap of
`0` (both falsy) fall back to the default `6`; any other value is used as-is. -/
def effectiveGap (gap : Option ℚ) : ℚ :=
  match gap with
  | none => GAP_DEFAULT
  | some g => if g = 0 then GAP_DEFAULT else g

/-- The tile-width computation inlined in `onLayout` (line 95):
`Math.round((width - (numColumns * (gap || GAP_DEFAULT))) / (numColumns + 0.25))`. -/
def computeItemWidth (width numColumns : ℚ) (gap : Option ℚ) : ℚ :=
  ((round ((width - numColumns * effectiveGap gap) / (numColumns + 1 / 4)) : ℤ) : ℚ)

/-- Initial component state: `width` from the window, `itemWidth: 0` (lines 88-91). -/
def initialState (windowWidth : ℚ) : CarouselImageState :=
  { width := windowWidth, itemWidth := 0 }

/-- The error the spec postulates for invalid `numColumns`; the source never
constructs it. -/
inductive ConfigurationError where
  | invalidNumColumns
deriving DecidableEq

/-- Component construction: the class has no constructor logic beyond the state
initializer; no validation of `numColumns` (or anything else) is performed. -/
def construct (windowWidth : ℚ) (_props : CarouselImageProps) :
    Except ConfigurationError CarouselImageState :=
  Except.ok (initialState windowWidth)

/-- `onLayout` (lines 93-101): store the reported width and the recomputed
item width. -/
def onLayout (props : CarouselImageProps) (_s : CarouselImageState) (layoutWidth : ℚ) :
    CarouselImageState :=
  { width := layoutWidth
    itemWidth := computeItemWidth layoutWidth props.numColumns props.gap }

/-- `onScroll` (lines 149-153): forward the offset to the animated value only
while `offsetX <= itemWidth * 2`; otherwise the animated value keeps its
previous value. Returns the new animated value. -/
def onScroll (s : CarouselImageState) (animatedValue offsetX : ℚ) : ℚ :=
  if offsetX ≤ s.itemWidth * 2 then offsetX else animatedValue

/-- Cubic Bézier coordinate with endpoints 0 and 1 and inner control
coordinates `c1`, `c2`: `3(1-t)²t·c1 + 3(1-t)t²·c2 + t³`. -/
def bezierCoord (c1 c2 t : ℚ) : ℚ :=
  3 * (1 - t) ^ 2 * t * c1 + 3 * (1 - t) * t ^ 2 * c2 + t ^ 3

/-- Horizontal coordinate of `Easing.bezier(0, 0, 0.58, 1)` (lines 124, 132). -/
def easingX (t : ℚ) : ℚ := bezierCoord 0 (58 / 100) t

/-- Vertical coordinate of `Easing.bezier(0, 0, 0.58, 1)`. -/
def easingY (t : ℚ) : ℚ := bezierCoord 0 1 t

structure AnimationSample where
  opacity : ℚ
  translateX : ℚ
deriving DecidableEq

/-- Two-point interpolation output: `o0 + e * (o1 - o0)`. -/
def interpOutput (o0 o1 e : ℚ) : ℚ := o0 + e * (o1 - o0)

/-- The animation sample at Bézier parameter `t`, per the two `interpolate`
configs of the banner (lines 121-135): opacity over output range `[1, 0.05]`,
translateX over output range `[0, -(itemWidth * 0.25)]`, both eased by the
same curve. -/
def sampleAtParam (itemWidth t : ℚ) : AnimationSample :=
  { opacity := interpOutput 1 (5 / 100) (easingY t)
    translateX := interpOutput 0 (-(itemWidth * (1 / 4))) (easingY t) }

/-- The scroll-to-animation mapping as a relation: `offset` in the input range
`[0, itemWidth * 2]` corresponds to eased progress `easingX t`
(so `easingX t * (itemWidth * 2) = offset`) and produces `sampleAtParam`. -/
def mapsTo (itemWidth offset : ℚ) (s : AnimationSample) : Prop :=
  ∃ t, 0 ≤ t ∧ t ≤ 1 ∧ easingX t * (itemWidth * 2) = offset ∧ s = sampleAtParam itemWidth t

/-- The banner `Animated.Image` as configured in `render` (lines 111-138). -/
structure BannerOutput where
  width : ℚ
  inputMax : ℚ
  opacityFrom : ℚ
  opacityTo : ℚ
  translateFrom : ℚ
  translateTo : ℚ
deriving DecidableEq

/-- One rendered carousel tile (lines 165-208): the item image is given
explicit width and height. -/
structure RenderedItem where
  key : String
  imageWidth : ℚ
  imageHeight : ℚ
deriving DecidableEq

structure CarouselOutput where
  gap : ℚ
  leadingSpacer : Option ℚ
  items : List RenderedItem
  trailingSpacer : Option ℚ
deriving DecidableEq

structure RenderOutput where
  banner : Option BannerOutput
  carousel : Option CarouselOutput
deriving DecidableEq

/-- `render` (lines 103-225). The banner exists iff `this.props.image &&
this.state.itemWidth` is truthy; the carousel exists iff `this.state.itemWidth`
is truthy; inside it, the leading spacer (width `itemWidth * 2`) exists iff an
image is configured, each data item becomes a tile whose image has width and
height `itemWidth`, and the trailing spacer (width `itemWidth`) is guarded
again by the truthiness of `itemWidth`. -/
def render (props : CarouselImageProps) (s : CarouselImageState) : RenderOutput :=
  { banner :=
      if props.image = true ∧ s.itemWidth ≠ 0 then
        some { width := s.itemWidth * 2
               inputMax := s.itemWidth * 2
               opacityFrom := 1
               opacityTo := 5 / 100
               translateFrom := 0
               translateTo := -(s.itemWidth * (1 / 4)) }
      else none
    carousel :=
      if s.itemWidth ≠ 0 then
        some { gap := effectiveGap props.gap
               leadingSpacer := if props.image = true then some (s.itemWidth * 2) else none
               items := props.data.map fun item =>
                 { key := item.key, imageWidth := s.itemWidth, imageHeight := s.itemWidth }
               trailingSpacer := if s.itemWidth ≠ 0 then some s.itemWidth else none }
      else none }

/-! ### Properties of the easing curve `Easing.bezier(0, 0, 0.58, 1)` -/

lemma easingX_eq (t : ℚ) : easingX t = 87 / 50 * t ^ 2 - 37 / 50 * t ^ 3 := by
  unfold easingX bezierCoord; ring

lemma easingY_eq (t : ℚ) : easingY t = 3 * t ^ 2 - 2 * t ^ 3 := by
  unfold easingY bezierCoord; ring

lemma easingX_zero : easingX 0 = 0 := by rw [easingX_eq]; norm_num

lemma easingX_one : easingX 1 = 1 := by rw [easingX_eq]; norm_num

lemma easingY_zero : easingY 0 = 0 := by rw [easingY_eq]; norm_num

lemma easingY_one : easingY 1 = 1 := by rw [easingY_eq]; norm_num

lemma easingX_lt_easingX {s t : ℚ} (hs : 0 ≤ s) (hst : s < t) (ht : t ≤ 1) :
    easingX s < easingX t := by
  rw [easingX_eq, easingX_eq]
  have ht0 : 0 < t := hs.trans_lt hst
  have hs1 : s ≤ 1 := hst.le.trans ht
  have h1 : t ^ 2 ≤ t := by nlinarith
  have h2 : s ^ 2 ≤ s := by nlinarith
  have h3 : t * s ≤ t := by nlinarith [mul_nonneg ht0.le (sub_nonneg.2 hs1)]
  have key : 0 < 87 / 50 * (t + s) - 37 / 50 * (t ^ 2 + t * s + s ^ 2) := by nlinarith
  nlinarith [mul_pos (sub_pos.2 hst) key]

lemma easingY_le_easingY {s t : ℚ} (hs : 0 ≤ s) (hst : s ≤ t) (ht : t ≤ 1) :
    easingY s ≤ easingY t := by
  rw [easingY_eq, easingY_eq]
  have hs1 : s ≤ 1 := hst.trans ht
  have h1 : t ^ 2 ≤ t := by nlinarith [mul_nonneg (hs.trans hst) (sub_nonneg.2 ht)]
  have h2 : s ^ 2 ≤ s := by nlinarith [mul_nonneg hs (sub_nonneg.2 hs1)]
  have h3 : 0 ≤ t * (1 - s) := mul_nonneg (hs.trans hst) (sub_nonneg.2 hs1)
  have h4 : 0 ≤ s * (1 - t) := mul_nonneg hs (sub_nonneg.2 ht)
  have key : 0 ≤ 3 * (t + s) - 2 * (t ^ 2 + t * s + s ^ 2) := by nlinarith
  nlinarith [mul_nonneg (sub_nonneg.2 hst) key]

lemma easingX_pos {t : ℚ} (h0 : 0 < t) (h1 : t ≤ 1) : 0 < easingX t := by
  rw [easingX_eq]
  nlinarith [mul_pos h0 h0, mul_nonneg (mul_nonneg h0.le h0.le) (sub_nonneg.2 h1)]

lemma easingX_eq_zero_iff {t : ℚ} (h0 : 0 ≤ t) (h1 : t ≤ 1) :
    easingX t = 0 ↔ t = 0 := by
  constructor
  · intro h
    by_contra hne
    exact absurd h (ne_of_gt (easingX_pos (lt_of_le_of_ne h0 (Ne.symm hne)) h1))
  · intro h; rw [h, easingX_zero]

lemma easingX_eq_one_iff {t : ℚ} (h0 : 0 ≤ t) (h1 : t ≤ 1) :
    easingX t = 1 ↔ t = 1 := by
  constructor
  · intro h
    by_contra hne
    have hlt : t < 1 := lt_of_le_of_ne h1 hne
    have hx := easingX_lt_easingX h0 hlt le_rfl
    rw [easingX_one, h] at hx
    exact lt_irrefl 1 hx
  · intro h; rw [h, easingX_one]

/-! ### Endpoint samples of the scroll-to-animation mapping -/

lemma sampleAtParam_zero (tw : ℚ) :
    sampleAtParam tw 0 = { opacity := 1, translateX := 0 } := by
  unfold sampleAtParam interpOutput
  rw [easingY_zero]
  norm_num

lemma sampleAtParam_one (tw : ℚ) :
    sampleAtParam tw 1 = { opacity := 5 / 100, translateX := -(tw * (1 / 4)) } := by
  unfold sampleAtParam interpOutput
  rw [easingY_one]
  norm_num

lemma mapsTo_offset_zero (tw : ℚ) : mapsTo tw 0 { opacity := 1, translateX := 0 } :=
  ⟨0, le_rfl, by norm_num, by rw [easingX_zero]; ring, (sampleAtParam_zero tw).symm⟩

lemma mapsTo_offset_max (tw : ℚ) :
    mapsTo tw (tw * 2) { opacity := 5 / 100, translateX := -(tw * (1 / 4)) } :=
  ⟨1, by norm_num, le_rfl, by rw [easingX_one]; ring, (sampleAtParam_one tw).symm⟩

lemma mapsTo_offset_zero_unique {tw : ℚ} (htw : 0 < tw) {s : AnimationSample}
    (h : mapsTo tw 0 s) : s = { opacity := 1, translateX := 0 } := by
  obtain ⟨t, ht0, ht1, hx, hs⟩ := h
  have h2 : tw * 2 ≠ 0 := by positivity
  have hx0 : easingX t = 0 := by
    rcases mul_eq_zero.1 hx with h | h
    · exact h
    · exact absurd h h2
  have ht : t = 0 := (easingX_eq_zero_iff ht0 ht1).1 hx0
  rw [hs, ht, sampleAtParam_zero]

lemma mapsTo_offset_max_unique {tw : ℚ} (htw : 0 < tw) {s : AnimationSample}
    (h : mapsTo tw (tw * 2) s) :
    s = { opacity := 5 / 100, translateX := -(tw * (1 / 4)) } := by
  obtain ⟨t, ht0, ht1, hx, hs⟩ := h
  have h2 : tw * 2 ≠ 0 := by positivity
  have hx1 : easingX t = 1 := by
    have hx' : easingX t * (tw * 2) = 1 * (tw * 2) := by rw [hx, one_mul]
    exact mul_right_cancel₀ h2 hx'
  have ht : t = 1 := (easingX_eq_one_iff ht0 ht1).1 hx1
  rw [hs, ht, sampleAtParam_one]

/-! ### Claims -/

/-- Claim C1 (corrected): the tile-width formula holds for every positive gap
(and `computeTileWidth(300, 3, 6) = 87`), but a supplied gap of `0` is replaced
by the default `6` before the formula is applied. -/
theorem C1_tile_width_formula (w n g : ℚ) (hg : 0 < g) :
    computeItemWidth w n (some g) = ((round ((w - n * g) / (n + 1 / 4)) : ℤ) : ℚ) ∧
    computeItemWidth 300 3 (some 6) = 87 := by
  constructor
  · unfold computeItemWidth
    simp only [effectiveGap]
    rw [if_neg hg.ne']
  · norm_num [computeItemWidth, effectiveGap, GAP_DEFAULT, round_eq]

/-- Claim C1 witness. -/
theorem C1_tile_width_formula_witness :
    (0 : ℚ) < 6 ∧
    (computeItemWidth 300 3 (some 6) = ((round ((300 - 3 * 6) / ((3 : ℚ) + 1 / 4)) : ℤ) : ℚ) ∧
      computeItemWidth 300 3 (some 6) = 87) :=
  ⟨by norm_num, C1_tile_width_formula 300 3 6 (by norm_num)⟩

/-- Claim C1 counterexample: with a supplied gap of `0` the code computes `87`
(the default gap `6` is substituted), while the claimed formula
`round((w - n·g)/(n + 0.25))` gives `92`. -/
theorem C1_counterexample :
    computeItemWidth 300 3 (some 0) = 87 ∧
    ((round ((300 - 3 * 0) / ((3 : ℚ) + 1 / 4)) : ℤ) : ℚ) = 92 ∧
    (87 : ℚ) ≠ 92 := by
  refine ⟨?_, ?_, by norm_num⟩
  · norm_num [computeItemWidth, effectiveGap, GAP_DEFAULT, round_eq]
  · norm_num [round_eq]

/-- Claim C2 (corrected): construction never fails — no validation of
`numColumns` exists; the state initializer always succeeds and `onLayout`
performs the tile-width division with whatever `numColumns` was supplied. -/
theorem C2_construction_never_fails (ww w : ℚ) (props : CarouselImageProps) :
    construct ww props = Except.ok (initialState ww) ∧
    (initialState ww).itemWidth = 0 ∧
    (onLayout props (initialState ww) w).itemWidth
      = computeItemWidth w props.numColumns props.gap :=
  ⟨rfl, rfl, rfl⟩

/-- Claim C2 counterexample: with `numColumns = 0` (not a positive integer)
construction succeeds instead of failing, and the tile-width division is
attempted, yielding `round(300 / 0.25) = 1200`. -/
theorem C2_counterexample :
    construct 360 { data := [], numColumns := 0, gap := some 6, image := false,
                    rounded := false }
      = Except.ok { width := 360, itemWidth := 0 } ∧
    computeItemWidth 300 0 (some 6) = 1200 := by
  constructor
  · rfl
  · norm_num [computeItemWidth, effectiveGap, GAP_DEFAULT, round_eq]

/-- Claim C3 (corrected): for an offset beyond `itemWidth * 2` the animated
value — and hence the sample derived from it — is unchanged, frozen at the
last forwarded in-domain offset (not necessarily the offset `itemWidth * 2`),
and any later in-domain offset is forwarded again. -/
theorem C3_scroll_guard (s : CarouselImageState) (v x : ℚ) :
    (s.itemWidth * 2 < x → onScroll s v x = v) ∧
    (x ≤ s.itemWidth * 2 → onScroll s v x = x) := by
  constructor
  · intro h
    unfold onScroll
    rw [if_neg (not_le.2 h)]
  · intro h
    unfold onScroll
    rw [if_pos h]

/-- Claim C3 witness. -/
theorem C3_scroll_guard_witness :
    onScroll { width := 300, itemWidth := 87 } 0 400 = 0 ∧
    onScroll { width := 300, itemWidth := 87 } 5 100 = 100 :=
  ⟨(C3_scroll_guard { width := 300, itemWidth := 87 } 0 400).1 (by norm_num),
   (C3_scroll_guard { width := 300, itemWidth := 87 } 5 100).2 (by norm_num)⟩

/-- Claim C3 counterexample: with `tileWidth = 87` and the animated value at
`0`, the out-of-domain offset `400` leaves the value at `0`, whose sample is
`{opacity: 1, translateX: 0}` — not a sample at offset `2 × tileWidth = 174`
(whose sample has opacity `0.05`). -/
theorem C3_counterexample :
    onScroll { width := 300, itemWidth := 87 } 0 400 = 0 ∧
    mapsTo 87 0 { opacity := 1, translateX := 0 } ∧
    ¬ mapsTo 87 (87 * 2) { opacity := 1, translateX := 0 } := by
  refine ⟨by norm_num [onScroll], mapsTo_offset_zero 87, fun h => ?_⟩
  have hs := mapsTo_offset_max_unique (by norm_num) h
  have hop : (1 : ℚ) = 5 / 100 := congrArg AnimationSample.opacity hs
  norm_num at hop

/-- Claim C4 (corrected): when `itemWidth = 0` the banner — and with it the
whole interpolation — is not rendered at all, so no division by zero can
occur; the degenerate mapping with input range `[0, 0]` relates no offset
other than `0`, so no resting sample is produced for positive offsets. -/
theorem C4_zero_width_no_banner (props : CarouselImageProps) (w offset : ℚ)
    (smp : AnimationSample) (h : mapsTo 0 offset smp) :
    (render props { width := w, itemWidth := 0 }).banner = none ∧ offset = 0 := by
  constructor
  · simp [render]
  · obtain ⟨t, _, _, hx, _⟩ := h
    rw [← hx]
    ring

/-- Claim C4 witness. -/
theorem C4_zero_width_no_banner_witness :
    (render { data := [], numColumns := 3, gap := none, image := true, rounded := false }
        { width := 300, itemWidth := 0 }).banner = none ∧ (0 : ℚ) = 0 :=
  C4_zero_width_no_banner
    { data := [], numColumns := 3, gap := none, image := true, rounded := false }
    300 0 { opacity := 1, translateX := 0 } (mapsTo_offset_zero 0)

/-- Claim C4 counterexample: at `tileWidth = 0` the mapping does not return
the resting sample for the offset `10` (it relates no sample at all there),
and the banner holding the interpolation is simply not rendered. -/
theorem C4_counterexample :
    ¬ mapsTo 0 10 { opacity := 1, translateX := 0 } ∧
    (render { data := [], numColumns := 3, gap := none, image := true, rounded := false }
        { width := 300, itemWidth := 0 }).banner = none := by
  constructor
  · rintro ⟨t, _, _, hx, _⟩
    norm_num at hx
  · simp [render]

/-- Claim C5 (confirmed): for positive `tileWidth`, the sample at offset `0`
is exactly `{opacity: 1, translateX: 0}` and the sample at offset
`tileWidth * 2` is exactly `{opacity: 0.05, translateX: -0.25 × tileWidth}`;
both samples exist and are the only ones the mapping relates there. -/
theorem C5_endpoint_samples (tw : ℚ) (s0 sm : AnimationSample) (htw : 0 < tw)
    (h0 : mapsTo tw 0 s0) (hm : mapsTo tw (tw * 2) sm) :
    s0 = { opacity := 1, translateX := 0 } ∧
    sm = { opacity := 5 / 100, translateX := -(tw * (1 / 4)) } ∧
    mapsTo tw 0 { opacity := 1, translateX := 0 } ∧
    mapsTo tw (tw * 2) { opacity := 5 / 100, translateX := -(tw * (1 / 4)) } :=
  ⟨mapsTo_offset_zero_unique htw h0, mapsTo_offset_max_unique htw hm,
   mapsTo_offset_zero tw, mapsTo_offset_max tw⟩

/-- Claim C5 witness. -/
theorem C5_endpoint_samples_witness :
    ({ opacity := 1, translateX := 0 } : AnimationSample)
        = { opacity := 1, translateX := 0 } ∧
    ({ opacity := 5 / 100, translateX := -(4 * (1 / 4)) } : AnimationSample)
        = { opacity := 5 / 100, translateX := -((4 : ℚ) * (1 / 4)) } ∧
    mapsTo 4 0 { opacity := 1, translateX := 0 } ∧
    mapsTo 4 (4 * 2) { opacity := 5 / 100, translateX := -((4 : ℚ) * (1 / 4)) } :=
  C5_endpoint_samples 4 { opacity := 1, translateX := 0 }
    { opacity := 5 / 100, translateX := -(4 * (1 / 4)) } (by norm_num)
    (mapsTo_offset_zero 4) (mapsTo_offset_max 4)

/-- Claim C6 (confirmed): for positive `tileWidth` and offsets
`x1 ≤ x2` within `[0, tileWidth * 2]`, the mapped opacity and the mapped
translateX at `x2` are both at most those at `x1` (both outputs are
non-increasing in the offset under the shared Bézier easing). -/
theorem C6_monotone_samples (tw x1 x2 : ℚ) (s1 s2 : AnimationSample)
    (htw : 0 < tw) (hx1 : 0 ≤ x1) (h12 : x1 ≤ x2) (hx2 : x2 ≤ tw * 2)
    (m1 : mapsTo tw x1 s1) (m2 : mapsTo tw x2 s2) :
    s2.opacity ≤ s1.opacity ∧ s2.translateX ≤ s1.translateX := by
  obtain ⟨t1, h10, h11, hx1e, hs1⟩ := m1
  obtain ⟨t2, h20, h21, hx2e, hs2⟩ := m2
  have h2pos : (0 : ℚ) < tw * 2 := by linarith
  have hxe : easingX t1 ≤ easingX t2 := by
    have h := h12
    rw [← hx1e, ← hx2e] at h
    exact le_of_mul_le_mul_right h h2pos
  have htt : t1 ≤ t2 := by
    by_contra hc
    push_neg at hc
    exact absurd hxe (not_le.2 (easingX_lt_easingX h20 hc h11))
  have hey : easingY t1 ≤ easingY t2 := easingY_le_easingY h10 htt h21
  subst hs1
  subst hs2
  unfold sampleAtParam interpOutput
  constructor
  · dsimp only
    linarith
  · dsimp only
    nlinarith [mul_nonneg (sub_nonneg.2 hey) htw.le]

/-- Claim C6 witness. -/
theorem C6_monotone_samples_witness :
    ({ opacity := 5 / 100, translateX := -(4 * (1 / 4)) } : AnimationSample).opacity
        ≤ ({ opacity := 1, translateX := 0 } : AnimationSample).opacity ∧
    ({ opacity := 5 / 100, translateX := -(4 * (1 / 4)) } : AnimationSample).translateX
        ≤ ({ opacity := 1, translateX := 0 } : AnimationSample).translateX :=
  C6_monotone_samples 4 0 (4 * 2) { opacity := 1, translateX := 0 }
    { opacity := 5 / 100, translateX := -(4 * (1 / 4)) }
    (by norm_num) le_rfl (by norm_num) le_rfl
    (mapsTo_offset_zero 4) (mapsTo_offset_max 4)

/-- Claim C7 (confirmed): while `itemWidth = 0` the renderer outputs no banner
and no carousel (hence no tiles); with positive `itemWidth` the carousel is
rendered, and the banner is rendered exactly when an image is configured. -/
theorem C7_deferred_rendering (props : CarouselImageProps) (s : CarouselImageState) :
    (s.itemWidth = 0 →
      (render props s).banner = none ∧ (render props s).carousel = none) ∧
    (0 < s.itemWidth →
      (render props s).carousel ≠ none ∧
      ((render props s).banner ≠ none ↔ props.image = true)) := by
  constructor
  · intro h
    simp [render, h]
  · intro h
    have hne : s.itemWidth ≠ 0 := ne_of_gt h
    by_cases hi : props.image = true <;> simp [render, hne, hi]

/-- Claim C7 witness. -/
theorem C7_deferred_rendering_witness :
    ((render { data := [], numColumns := 3, gap := none, image := true, rounded := false }
        { width := 300, itemWidth := 0 }).banner = none ∧
      (render { data := [], numColumns := 3, gap := none, image := true, rounded := false }
        { width := 300, itemWidth := 0 }).carousel = none) ∧
    ((render { data := [], numColumns := 3, gap := none, image := true, rounded := false }
        { width := 300, itemWidth := 87 }).carousel ≠ none ∧
      ((render { data := [], numColumns := 3, gap := none, image := true, rounded := false }
        { width := 300, itemWidth := 87 }).banner ≠ none ↔
        ({ data := [], numColumns := 3, gap := none, image := true,
           rounded := false } : CarouselImageProps).image = true)) :=
  ⟨(C7_deferred_rendering _ { width := 300, itemWidth := 0 }).1 rfl,
   (C7_deferred_rendering _ { width := 300, itemWidth := 87 }).2 (by norm_num)⟩

/-- Claim C8 (corrected): more gap never increases the tile width only once
the supplied gap is at least the default `6`: because a supplied gap of `0`
falls back to the default `6`, `computeItemWidth w n (some g) ≤
computeItemWidth w n (some 0)` holds for every `g ≥ 6` (and fails for
`0 < g < 6`). -/
theorem C8_gap_monotone (w n g : ℚ) (hn : 0 < n) (hg : 6 ≤ g) :
    computeItemWidth w n (some g) ≤ computeItemWidth w n (some 0) := by
  have hg0 : g ≠ 0 := by linarith
  have e1 : effectiveGap (some g) = g := by simp [effectiveGap, hg0]
  have e2 : effectiveGap (some 0) = 6 := by simp [effectiveGap, GAP_DEFAULT]
  unfold computeItemWidth
  rw [e1, e2]
  have hc : (0 : ℚ) < n + 1 / 4 := by linarith
  have harg : (w - n * g) / (n + 1 / 4) ≤ (w - n * 6) / (n + 1 / 4) := by
    rw [div_le_div_iff_of_pos_right hc]
    nlinarith [mul_le_mul_of_nonneg_left hg hn.le]
  rw [round_eq, round_eq]
  exact_mod_cast Int.floor_le_floor (by linarith)

/-- Claim C8 witness. -/
theorem C8_gap_monotone_witness :
    (0 : ℚ) < 3 ∧ (6 : ℚ) ≤ 7 ∧
    computeItemWidth 300 3 (some 7) ≤ computeItemWidth 300 3 (some 0) :=
  ⟨by norm_num, by norm_num, C8_gap_monotone 300 3 7 (by norm_num) (by norm_num)⟩

/-- Claim C8 counterexample: at `w = 300`, `n = 3`, `g = 1` the code gives
`computeItemWidth(300, 3, 0) = 87` (gap `0` falls back to `6`) but
`computeItemWidth(300, 3, 1) = 91`, so the claimed inequality
`computeTileWidth(w, n, 0) ≥ computeTileWidth(w, n, g)` fails. -/
theorem C8_counterexample :
    computeItemWidth 300 3 (some 0) = 87 ∧
    computeItemWidth 300 3 (some 1) = 91 ∧
    ¬ ((91 : ℚ) ≤ 87) := by
  refine ⟨?_, ?_, by norm_num⟩ <;>
    norm_num [computeItemWidth, effectiveGap, GAP_DEFAULT, round_eq]

/-- Claim C9 (confirmed): the falsy-or fallback treats a supplied gap of `0`
exactly like an absent gap — both the tile-width computation and the spacing
passed to the inner carousel use the default `6` — while every positive
supplied gap is used as given. -/
theorem C9_falsy_gap_default (w n g : ℚ) (props : CarouselImageProps)
    (s : CarouselImageState) (c : CarouselOutput) (hg : 0 < g)
    (hc : (render props s).carousel = some c) :
    effectiveGap (some 0) = GAP_DEFAULT ∧
    effectiveGap none = GAP_DEFAULT ∧
    effectiveGap (some g) = g ∧
    computeItemWidth w n (some 0) = computeItemWidth w n (some GAP_DEFAULT) ∧
    c.gap = effectiveGap props.gap := by
  refine ⟨by simp [effectiveGap], rfl, by simp [effectiveGap, hg.ne'], ?_, ?_⟩
  · unfold computeItemWidth
    have e1 : effectiveGap (some 0) = effectiveGap (some GAP_DEFAULT) := by
      simp [effectiveGap, GAP_DEFAULT]
    rw [e1]
  · by_cases hw : s.itemWidth = 0
    · exfalso
      simp [render, hw] at hc
    · simp [render, hw] at hc
      rw [← hc]

/-- Claim C9 witness. -/
theorem C9_falsy_gap_default_witness :
    effectiveGap (some 0) = GAP_DEFAULT ∧
    effectiveGap none = GAP_DEFAULT ∧
    effectiveGap (some 5) = 5 ∧
    computeItemWidth 300 3 (some 0) = computeItemWidth 300 3 (some GAP_DEFAULT) ∧
    ({ gap := 6, leadingSpacer := none, items := [],
       trailingSpacer := some 87 } : CarouselOutput).gap
      = effectiveGap ({ data := [], numColumns := 3, gap := some 0, image := false,
                        rounded := false } : CarouselImageProps).gap :=
  C9_falsy_gap_default 300 3 5
    { data := [], numColumns := 3, gap := some 0, image := false, rounded := false }
    { width := 300, itemWidth := 87 }
    { gap := 6, leadingSpacer := none, items := [], trailingSpacer := some 87 }
    (by norm_num)
    (by simp [render, effectiveGap, GAP_DEFAULT])

/-- Claim C10 (confirmed): in every rendered state with positive `itemWidth`,
every carousel item image is square — its rendered width and height both equal
the current `itemWidth`. -/
theorem C10_square_item_images (props : CarouselImageProps) (s : CarouselImageState)
    (c : CarouselOutput) (it : RenderedItem) (htw : 0 < s.itemWidth)
    (hc : (render props s).carousel = some c) (hit : it ∈ c.items) :
    it.imageWidth = s.itemWidth ∧ it.imageHeight = s.itemWidth := by
  have hw : s.itemWidth ≠ 0 := ne_of_gt htw
  simp [render, hw] at hc
  rw [← hc] at hit
  simp only [List.mem_map] at hit
  obtain ⟨item, _, rfl⟩ := hit
  exact ⟨rfl, rfl⟩

/-- Claim C10 witness. -/
theorem C10_square_item_images_witness :
    ({ key := "a", imageWidth := 87, imageHeight := 87 } : RenderedItem).imageWidth
      = ({ width := 300, itemWidth := 87 } : CarouselImageState).itemWidth ∧
    ({ key := "a", imageWidth := 87, imageHeight := 87 } : RenderedItem).imageHeight
      = ({ width := 300, itemWidth := 87 } : CarouselImageState).itemWidth :=
  C10_square_item_images
    { data := [{ key := "a" }], numColumns := 3, gap := none, image := false,
      rounded := false }
    { width := 300, itemWidth := 87 }
    { gap := 6, leadingSpacer := none,
      items := [{ key := "a", imageWidth := 87, imageHeight := 87 }],
      trailingSpacer := some 87 }
    { key := "a", imageWidth := 87, imageHeight := 87 }
    (by norm_num)
    (by simp [render, effectiveGap, GAP_DEFAULT])
    (by simp)
